import Mathlib

/-!
Verification of the two CGI scripts of the Webserv repository,
`src/www/cgi-bin/hello.py` and `src/www/cgi-bin/test.py`.

Both scripts are straight-line Python: they read one environment variable,
optionally parse it as an `application/x-www-form-urlencoded` query string,
and print a fixed sequence of header lines, a blank separator and an HTML
body.  We embed strings as `List Char` and model each library function the
scripts call (`html.escape`, `urllib.parse.parse_qs` with its helpers
`parse_qsl` and `unquote`, `os.environ.get`, `print`) faithfully after the
CPython implementations, then model the standard output of each script as a
pure function of the process environment.
-/

set_option maxRecDepth 100000

namespace Webserv

/-- Strings are modelled as lists of unicode characters. -/
abbrev Str := List Char

/-- Convert a Lean string literal to our character-list representation. -/
def s2l (s : String) : Str := s.data

/-- The newline character, written by every Python `print` call. -/
def nlc : Char := Char.ofNat 10

/-- The carriage-return character (appears in the header lines of test.py). -/
def crc : Char := Char.ofNat 13

/-- The ampersand character. -/
def ampc : Char := Char.ofNat 38

/-- The less-than character. -/
def ltc : Char := Char.ofNat 60

/-- The greater-than character. -/
def gtc : Char := Char.ofNat 62

/-- The double-quote character. -/
def quoc : Char := Char.ofNat 34

/-- The single-quote character. -/
def sqc : Char := Char.ofNat 39

/-- The percent character, the escape introducer of URL encoding. -/
def pctc : Char := Char.ofNat 37

/-- The plus character, decoded to a space by `parse_qsl`. -/
def plusc : Char := Char.ofNat 43

/-- The equals character, separating a key from a value in a query string. -/
def eqc : Char := Char.ofNat 61

/-- The ampersand also separates `key=value` fields; named for readability. -/
def sepc : Char := ampc

/-- Python `str.replace(old, new)` for a single-character `old`: every
occurrence of `old` is replaced by the string `new`. -/
def pyReplaceChar (old : Char) (new : Str) : Str → Str
  | [] => []
  | c :: s => (if c = old then new else [c]) ++ pyReplaceChar old new s

/-- CPython `html.escape(s, quote=True)` (Lib/html/__init__.py): five
successive `str.replace` calls, ampersand first so that the ampersands
introduced by the later entities are left alone. -/
def html_escape (s : Str) : Str :=
  let s1 := pyReplaceChar ampc (s2l "&amp;") s
  let s2 := pyReplaceChar ltc (s2l "&lt;") s1
  let s3 := pyReplaceChar gtc (s2l "&gt;") s2
  let s4 := pyReplaceChar quoc (s2l "&quot;") s3
  pyReplaceChar sqc (s2l "&#x27;") s4

/-- Value of a hexadecimal digit, `none` for non-hex characters; this is
CPython `_hextobyte` table restricted to one digit (both cases accepted). -/
def hexVal (c : Char) : Option Nat :=
  let n := c.toNat
  if 48 ≤ n ∧ n ≤ 57 then some (n - 48)
  else if 65 ≤ n ∧ n ≤ 70 then some (n - 55)
  else if 97 ≤ n ∧ n ≤ 102 then some (n - 87)
  else none

/-- One element of the intermediate stream produced by percent-decoding: a
byte (from an ASCII character or a `%XX` escape) or a non-ASCII character
that passes through CPython `unquote` outside the ASCII runs. -/
abbrev ByteOrChar := Sum Nat Char

/-- Percent-scan of CPython `urllib.parse.unquote`: `%XX` with two hex
digits yields the byte `0xXX`; an invalid escape leaves the `%` as a literal
byte; plain ASCII characters become their own byte; characters ≥ U+0080 are
outside the ASCII runs and pass through unchanged.  The `fuel` argument only
drives structural recursion; each step consumes at least one character, so
`fuel = length` (as supplied by `pctScan`) never runs out and the
`fuel = 0` fallback is unreachable. -/
def pctScanF : Nat → Str → List ByteOrChar
  | _, [] => []
  | 0, _ :: _ => []
  | fuel + 1, c :: rest =>
    if c = pctc then
      match rest with
      | a :: b :: rest2 =>
        match hexVal a, hexVal b with
        | some ha, some hb => Sum.inl (16 * ha + hb) :: pctScanF fuel rest2
        | _, _ => Sum.inl 37 :: pctScanF fuel rest
      | _ => Sum.inl 37 :: pctScanF fuel rest
    else if c.toNat < 128 then Sum.inl c.toNat :: pctScanF fuel rest
    else Sum.inr c :: pctScanF fuel rest

/-- Percent-scan with enough fuel for the whole input. -/
def pctScan (s : Str) : List ByteOrChar := pctScanF s.length s

/-- Is `b` a UTF-8 continuation byte (`0x80..0xBF`)? -/
def isCont (b : Nat) : Bool := 128 ≤ b && b ≤ 191

/-- Valid second byte of a three-byte UTF-8 sequence with lead `b`: the lead
`0xE0` excludes overlong encodings and `0xED` excludes surrogates. -/
def cont3ok (b c1 : Nat) : Bool :=
  if b = 224 then 160 ≤ c1 && c1 ≤ 191
  else if b = 237 then 128 ≤ c1 && c1 ≤ 159
  else isCont c1

/-- Valid second byte of a four-byte UTF-8 sequence with lead `b`: the lead
`0xF0` excludes overlong encodings and `0xF4` caps at U+10FFFF. -/
def cont4ok (b c1 : Nat) : Bool :=
  if b = 240 then 144 ≤ c1 && c1 ≤ 191
  else if b = 244 then 128 ≤ c1 && c1 ≤ 143
  else isCont c1

/-- The Unicode replacement character U+FFFD. -/
def replChar : Char := Char.ofNat 65533

/-- UTF-8 decoding with the `replace` error handler, as CPython
`bytes.decode("utf-8", "replace")` behaves on the byte runs of `unquote`:
each maximal invalid subsequence (an invalid lead byte, or a truncated
sequence consisting of a lead byte plus its valid continuations) becomes one
U+FFFD.  Pass-through characters (`Sum.inr`) interrupt byte runs and so also
truncate a pending multi-byte sequence.  As in `pctScanF`, the `fuel`
argument only drives structural recursion and never runs out when set to the
input length. -/
def utf8dF : Nat → List ByteOrChar → Str
  | _, [] => []
  | 0, _ :: _ => []
  | fuel + 1, Sum.inr c :: t => c :: utf8dF fuel t
  | fuel + 1, Sum.inl b :: t =>
    if b < 128 then Char.ofNat b :: utf8dF fuel t
    else if b < 194 then replChar :: utf8dF fuel t
    else if b ≤ 223 then
      match t with
      | Sum.inl c1 :: t1 =>
        if isCont c1 then Char.ofNat (64 * (b - 192) + (c1 - 128)) :: utf8dF fuel t1
        else replChar :: utf8dF fuel t
      | _ => replChar :: utf8dF fuel t
    else if b ≤ 239 then
      match t with
      | Sum.inl c1 :: t1 =>
        if cont3ok b c1 then
          match t1 with
          | Sum.inl c2 :: t2 =>
            if isCont c2 then
              Char.ofNat (4096 * (b - 224) + 64 * (c1 - 128) + (c2 - 128)) :: utf8dF fuel t2
            else replChar :: utf8dF fuel t1
          | _ => replChar :: utf8dF fuel t1
        else replChar :: utf8dF fuel t
      | _ => replChar :: utf8dF fuel t
    else if b ≤ 244 then
      match t with
      | Sum.inl c1 :: t1 =>
        if cont4ok b c1 then
          match t1 with
          | Sum.inl c2 :: t2 =>
            if isCont c2 then
              match t2 with
              | Sum.inl c3 :: t3 =>
                if isCont c3 then
                  Char.ofNat (262144 * (b - 240) + 4096 * (c1 - 128)
                    + 64 * (c2 - 128) + (c3 - 128)) :: utf8dF fuel t3
                else replChar :: utf8dF fuel t2
              | _ => replChar :: utf8dF fuel t2
            else replChar :: utf8dF fuel t1
          | _ => replChar :: utf8dF fuel t1
        else replChar :: utf8dF fuel t
      | _ => replChar :: utf8dF fuel t
    else replChar :: utf8dF fuel t

/-- UTF-8 decoding with replacement, with enough fuel for the whole input. -/
def utf8d (l : List ByteOrChar) : Str := utf8dF l.length l

/-- CPython `urllib.parse.unquote(s, encoding="utf-8", errors="replace")`:
percent-decode to bytes and decode those as UTF-8 with replacement. -/
def unquote (s : Str) : Str := utf8d (pctScan s)

/-- Python `str.split(sep)` for a one-character separator: splits at every
occurrence and keeps empty pieces, so `"".split(sep) = [""]`. -/
def pySplitChar (sep : Char) : Str → List Str
  | [] => [[]]
  | c :: t =>
    if c = sep then [] :: pySplitChar sep t
    else
      match pySplitChar sep t with
      | [] => [[c]]
      | h :: r => (c :: h) :: r

/-- Python `str.split("=", 1)`: `none` when there is no `=`, otherwise the
pieces before and after the first `=`. -/
def splitFirstEq : Str → Option (Str × Str)
  | [] => none
  | c :: t =>
    if c = eqc then some ([], t)
    else
      match splitFirstEq t with
      | none => none
      | some (a, b) => some (c :: a, b)

/-- The `+` → space and percent decoding applied by `parse_qsl` to each
field name and value (`nv.replace("+", " ")` followed by `unquote` with
`errors="replace"`); this is `urllib.parse.unquote_plus`. -/
def unquote_plus (s : Str) : Str := unquote (pyReplaceChar plusc (s2l " ") s)

/-- CPython `urllib.parse.parse_qsl(qs)` with the defaults used by
`parse_qs(qs)` (`keep_blank_values=False`, `strict_parsing=False`,
`separator="&"`): split on `&`, skip empty fields, skip fields without `=`,
skip fields whose raw value is empty, and decode name and value. -/
def parse_qsl (qs : Str) : List (Str × Str) :=
  (pySplitChar sepc qs).filterMap fun field =>
    if field = [] then none
    else
      match splitFirstEq field with
      | none => none
      | some (n, v) => if v = [] then none else some (unquote_plus n, unquote_plus v)

/-- The list of values that the CPython `parse_qs(qs)` dictionary associates
with `key`: the decoded values of all fields with that decoded name, in
order of occurrence.  The key is absent from the dictionary exactly when
this list is empty. -/
def parse_qs_get (qs : Str) (key : Str) : List Str :=
  (parse_qsl qs).filterMap fun p => if p.1 = key then some p.2 else none

/-- The process environment: a finite association of variable names to
string values. -/
abbrev Env := List (String × String)

/-- Looking a variable up in the environment (`os.environ` as a mapping). -/
def envLookup (e : Env) (k : String) : Option String :=
  (e.find? fun p => p.1 == k).map fun p => p.2

/-- Python `os.environ.get(k, d)`: the value of the variable, or the default
`d` when the variable is absent. -/
def envGetD (e : Env) (k : String) (d : String) : String :=
  (envLookup e k).getD d

/-- Python `print(s)`: the printed text followed by one newline. -/
def pyPrint (s : Str) : Str := s ++ [nlc]

/-- The fallback of `params.get("name", ["Nobody"])` in hello.py. -/
def defaultName : Str := s2l "Nobody"

/-- The key hello.py extracts from the parsed query string. -/
def nameKey : Str := s2l "name"

/-- hello.py line 6: `qs = os.environ.get("QUERY_STRING", "")`. -/
def helloQs (e : Env) : Str := (envGetD e "QUERY_STRING" "").data

/-- hello.py line 8: `params.get("name", ["Nobody"])` — the value list of the
dictionary when the key is present, the one-element fallback otherwise. -/
def paramsGetName (qs : Str) : List Str :=
  match parse_qs_get qs nameKey with
  | [] => [defaultName]
  | v :: vs => v :: vs

/-- hello.py line 8 including the final `[0]`, with the indexing of the
(always non-empty) list resolved: the first value of the `name` parameter,
or `"Nobody"`. -/
def extractName (qs : Str) : Str :=
  match parse_qs_get qs nameKey with
  | [] => defaultName
  | v :: _ => v

/-- hello.py line 8 with the possibly-failing Python `[0]` indexing made
explicit: `none` would model an `IndexError`. -/
def extractNameOpt (qs : Str) : Option Str := (paramsGetName qs).head?

/-- The f-string of hello.py lines 15–34 up to the `{name}` interpolation. -/
def helloTmplA : Str := s2l "<!doctype html>\n<html lang=\"en\">\n<head>\n  <meta charset=\"utf-8\">\n  <title>CGI Hello</title>\n  <link rel=\"stylesheet\" href=\"/static/style.css\">\n</head>\n\n<body class=\"demo-page\">\n  <main class=\"container demo-wrap\">\n    <h1 class=\"demo-title\">Hello, "

/-- The f-string of hello.py lines 15–34 after the `{name}` interpolation. -/
def helloTmplB : Str := s2l "!</h1>\n    <p class=\"demo-text\">This is a CGI response (dynamic).</p>\n\n    <div class=\"form-actions form-actions-gap\">\n      <a class=\"button button-lg\" href=\"/demo/cgi.html\">Back</a>\n      <a class=\"button button-lg\" href=\"/\">Home</a>\n    </div>\n  </main>\n</body>\n</html>"

/-- The body print of hello.py (line 15), as a function of the raw extracted
name: the f-string interpolates `html.escape` of the name (line 9). -/
def helloBody (rawName : Str) : Str :=
  pyPrint (helloTmplA ++ html_escape rawName ++ helloTmplB)

/-- The full standard output of hello.py as a function of the process
environment: the three header prints of lines 11–13 followed by the body. -/
def helloOut (e : Env) : Str :=
  pyPrint (s2l "Status: 200 OK")
    ++ pyPrint (s2l "Content-Type: text/html; charset=utf-8")
    ++ pyPrint []
    ++ helloBody (extractName (helloQs e))

/-- The meta-charset line of test.py line 13, which encloses UTF-8 in
single quotes (written via `sqc`). -/
def metaLine : Str := s2l "  <meta charset=" ++ [sqc] ++ s2l "UTF-8" ++ [sqc] ++ s2l ">"

/-- test.py line 20: `os.environ.get("REQUEST_METHOD", "UNKNOWN")`. -/
def testMethod (e : Env) : Str := (envGetD e "REQUEST_METHOD" "UNKNOWN").data

/-- The prints of test.py lines 6–18, before the request-method line. -/
def testPreLines : Str :=
  pyPrint (s2l "Content-Type: text/html\r")
    ++ pyPrint (s2l "\r")
    ++ pyPrint (s2l "<!DOCTYPE html>")
    ++ pyPrint (s2l "<html>")
    ++ pyPrint (s2l "<head>")
    ++ pyPrint metaLine
    ++ pyPrint (s2l "  <title>CGI Test</title>")
    ++ pyPrint (s2l "</head>")
    ++ pyPrint (s2l "<body>")
    ++ pyPrint (s2l "  <h1>Hello from CGI!</h1>")
    ++ pyPrint (s2l "  <p>If you can see this, it means that CGI handling is working.</p>")

/-- The full standard output of test.py as a function of the process
environment (lines 6–24; the method is interpolated unescaped). -/
def testOut (e : Env) : Str :=
  testPreLines
    ++ pyPrint (s2l "  <p>Request method: <strong>" ++ testMethod e ++ s2l "</strong></p>")
    ++ pyPrint (s2l "</body>")
    ++ pyPrint (s2l "</html>")

/-- A Boolean substring test: does `p` occur contiguously inside `s`? -/
def occursIn (p : Str) : Str → Bool
  | [] => p.isEmpty
  | c :: t => p.isPrefixOf (c :: t) || occursIn p t

/-- All lines of a piece of text, split at every newline character (the last
piece is what follows the final newline; printed output therefore ends with
an empty piece). -/
def linesOf : Str → List Str := pySplitChar nlc

/-- Drop a single trailing carriage return, so that a line is judged blank
whether the script terminated it with `\n` or with `\r\n`. -/
def stripCR (l : Str) : Str :=
  if l.getLast? = some crc then l.dropLast else l

/-- Does a line list start with a non-empty header block, followed by
exactly one blank line, followed by a non-blank body line?  The scan walks
the header block; at the first blank line it demands a following non-blank
line. -/
def sepCheck : List Str → Bool
  | a :: b :: rest =>
    if a.isEmpty then false
    else if b.isEmpty then
      match rest with
      | [] => false
      | c :: _ => !c.isEmpty
    else sepCheck (b :: rest)
  | _ => false

/-- The header/body separation invariant of an emitted output: among its
`\r`-stripped lines, a non-empty block of non-blank header lines is followed
by exactly one blank line and then a non-blank first body line. -/
def headerSepOk (out : Str) : Bool := sepCheck ((linesOf out).map stripCR)

/-- What `html_escape` does to one character. -/
def escChar (c : Char) : Str :=
  if c = ampc then s2l "&amp;"
  else if c = ltc then s2l "&lt;"
  else if c = gtc then s2l "&gt;"
  else if c = quoc then s2l "&quot;"
  else if c = sqc then s2l "&#x27;"
  else [c]

/-- Does a string contain one of the five characters `html.escape` acts
on? -/
def hasSpecial (s : Str) : Bool :=
  s.any fun c => c == ampc || c == ltc || c == gtc || c == quoc || c == sqc

/-- Does a string avoid every raw markup-significant character other than
the ampersand (which escaping itself introduces, as the head of each
entity)? -/
def noRawMarkup (s : Str) : Bool :=
  s.all fun c => !(c == ltc || c == gtc || c == quoc || c == sqc)

/-- Everything hello.py prints before the interpolated escaped name: the
status line, the content-type header, the blank separator and the template
up to `Hello, `. -/
def helloPre : Str :=
  pyPrint (s2l "Status: 200 OK")
    ++ pyPrint (s2l "Content-Type: text/html; charset=utf-8")
    ++ pyPrint []
    ++ helloTmplA

/-- Everything hello.py prints after the interpolated escaped name. -/
def helloSuf : Str := helloTmplB ++ [nlc]

/-- Everything test.py prints before the interpolated request method. -/
def testPre : Str := testPreLines ++ s2l "  <p>Request method: <strong>"

/-- Everything test.py prints after the interpolated request method. -/
def testSuf : Str :=
  s2l "</strong></p>" ++ [nlc] ++ pyPrint (s2l "</body>") ++ pyPrint (s2l "</html>")

/-- The hello.py template after its first line `<!doctype html>\n`. -/
def helloTmplA2 : Str := helloTmplA.drop 16

/-- The prints of test.py after its first two (header) lines. -/
def testTail (e : Env) : Str :=
  pyPrint (s2l "<html>")
    ++ pyPrint (s2l "<head>")
    ++ pyPrint metaLine
    ++ pyPrint (s2l "  <title>CGI Test</title>")
    ++ pyPrint (s2l "</head>")
    ++ pyPrint (s2l "<body>")
    ++ pyPrint (s2l "  <h1>Hello from CGI!</h1>")
    ++ pyPrint (s2l "  <p>If you can see this, it means that CGI handling is working.</p>")
    ++ pyPrint (s2l "  <p>Request method: <strong>" ++ testMethod e ++ s2l "</strong></p>")
    ++ pyPrint (s2l "</body>")
    ++ pyPrint (s2l "</html>")

/-- The complete header section of the hello.py output (lines 11–13): status
line, content-type line and blank separator. -/
def helloHead : Str :=
  pyPrint (s2l "Status: 200 OK")
    ++ pyPrint (s2l "Content-Type: text/html; charset=utf-8")
    ++ pyPrint []

/-- The complete header section of the test.py output (lines 6–7):
content-type line and blank separator, CRLF-terminated, with no status
line. -/
def testHead : Str :=
  pyPrint (s2l "Content-Type: text/html\r") ++ pyPrint (s2l "\r")

/-!  ## Sanity checks against CPython behaviour  -/

example : html_escape (s2l "a<b") = s2l "a&lt;b" := by decide

example : html_escape (s2l "<script>") = s2l "&lt;script&gt;" := by decide

example : html_escape [sqc, ampc] = s2l "&#x27;&amp;" := by decide

example : unquote (s2l "%3Cscript%3E") = s2l "<script>" := by decide

example : unquote (s2l "a%20b") = s2l "a b" := by decide

example : unquote (s2l "%4") = s2l "%4" := by decide

example : unquote (s2l "%%41") = s2l "%A" := by decide

example : unquote (s2l "%C3%A9") = s2l "é" := by decide

example : unquote (s2l "%C3") = [replChar] := by decide

example : parse_qsl (s2l "name=a&name=b") = [(s2l "name", s2l "a"), (s2l "name", s2l "b")] := by
  decide

example : parse_qsl (s2l "") = [] := by decide

example : parse_qsl (s2l "name=") = [] := by decide

example : parse_qsl (s2l "name") = [] := by decide

example : parse_qs_get (s2l "a=1&name=x&name=y") (s2l "name") = [s2l "x", s2l "y"] := by decide

example : unquote (s2l "%e2%82A") = [replChar, Char.ofNat 65] := by decide

example : unquote (s2l "%F4%90%80%80") = [replChar, replChar, replChar, replChar] := by decide

example : unquote_plus (s2l "a+b") = s2l "a b" := by decide

example : parse_qsl (s2l "=x") = [([], s2l "x")] := by decide

example : parse_qsl (s2l "n+a%6De=x") = [(s2l "n ame", s2l "x")] := by decide

example : extractName (s2l "") = s2l "Nobody" := by decide

example : extractName (s2l "name=a&name=b") = s2l "a" := by decide

example : extractName (s2l "name=%3Cscript%3E") = s2l "<script>" := by decide

/-!  ## Lemmas  -/

lemma isPrefixOf_app (p b : Str) : p.isPrefixOf (p ++ b) = true := by
  induction p with
  | nil => cases b <;> rfl
  | cons c t ih => simp [List.isPrefixOf, ih]

lemma occursIn_nil_pat (s : Str) : occursIn [] s = true := by
  cases s <;> simp [occursIn, List.isEmpty, List.isPrefixOf]

lemma occursIn_self_app (p b : Str) : occursIn p (p ++ b) = true := by
  cases p with
  | nil => simpa using occursIn_nil_pat b
  | cons c t =>
    rw [List.cons_append, occursIn]
    have h := isPrefixOf_app (c :: t) b
    rw [List.cons_append] at h
    rw [h, Bool.true_or]

lemma occursIn_app (a p b : Str) : occursIn p (a ++ (p ++ b)) = true := by
  induction a with
  | nil => simpa using occursIn_self_app p b
  | cons c t ih =>
    rw [List.cons_append, occursIn, ih, Bool.or_true]

lemma pySplitChar_app_sep (sep : Char) (a b : Str) (h : ∀ c ∈ a, c ≠ sep) :
    pySplitChar sep (a ++ sep :: b) = a :: pySplitChar sep b := by
  induction a with
  | nil => simp [pySplitChar]
  | cons c t ih =>
    have hc : c ≠ sep := h c (List.mem_cons_self c t)
    have ht : ∀ x ∈ t, x ≠ sep := fun x hx => h x (List.mem_cons_of_mem c hx)
    rw [List.cons_append, pySplitChar, if_neg hc, ih ht]

lemma linesOf_app_nl (a b : Str) (h : ∀ c ∈ a, c ≠ nlc) :
    linesOf (a ++ nlc :: b) = a :: linesOf b :=
  pySplitChar_app_sep nlc a b h

lemma pyReplaceChar_app (old : Char) (new a b : Str) :
    pyReplaceChar old new (a ++ b) = pyReplaceChar old new a ++ pyReplaceChar old new b := by
  induction a with
  | nil => rfl
  | cons c t ih => simp [pyReplaceChar, ih]

lemma html_escape_app (a b : Str) :
    html_escape (a ++ b) = html_escape a ++ html_escape b := by
  simp [html_escape, pyReplaceChar_app]

lemma html_escape_single (c : Char) : html_escape [c] = escChar c := by
  by_cases h1 : c = ampc
  · subst h1; decide
  by_cases h2 : c = ltc
  · subst h2; decide
  by_cases h3 : c = gtc
  · subst h3; decide
  by_cases h4 : c = quoc
  · subst h4; decide
  by_cases h5 : c = sqc
  · subst h5; decide
  simp [html_escape, pyReplaceChar, escChar, h1, h2, h3, h4, h5]

lemma html_escape_cons (c : Char) (s : Str) :
    html_escape (c :: s) = escChar c ++ html_escape s := by
  have h : (c :: s) = [c] ++ s := rfl
  rw [h, html_escape_app, html_escape_single]

lemma escChar_noRawMarkup (c : Char) : noRawMarkup (escChar c) = true := by
  by_cases h1 : c = ampc
  · subst h1; decide
  by_cases h2 : c = ltc
  · subst h2; decide
  by_cases h3 : c = gtc
  · subst h3; decide
  by_cases h4 : c = quoc
  · subst h4; decide
  by_cases h5 : c = sqc
  · subst h5; decide
  simp [escChar, noRawMarkup, h1, h2, h3, h4, h5]

lemma noRawMarkup_escape (s : Str) : noRawMarkup (html_escape s) = true := by
  induction s with
  | nil => decide
  | cons c t ih =>
    rw [html_escape_cons]
    have h := escChar_noRawMarkup c
    simp only [noRawMarkup, List.all_append] at h ih ⊢
    rw [h, ih]
    rfl

lemma escChar_len_ge_one (c : Char) : 1 ≤ (escChar c).length := by
  by_cases h1 : c = ampc
  · subst h1; decide
  by_cases h2 : c = ltc
  · subst h2; decide
  by_cases h3 : c = gtc
  · subst h3; decide
  by_cases h4 : c = quoc
  · subst h4; decide
  by_cases h5 : c = sqc
  · subst h5; decide
  simp [escChar, h1, h2, h3, h4, h5]

lemma escChar_len_special (c : Char)
    (h : (c == ampc || c == ltc || c == gtc || c == quoc || c == sqc) = true) :
    2 ≤ (escChar c).length := by
  simp only [Bool.or_eq_true, beq_iff_eq] at h
  rcases h with ((((h | h) | h) | h) | h) <;> subst h <;> decide

lemma escape_len_ge (s : Str) : s.length ≤ (html_escape s).length := by
  induction s with
  | nil => simp [html_escape, pyReplaceChar]
  | cons c t ih =>
    rw [html_escape_cons, List.length_append, List.length_cons]
    have := escChar_len_ge_one c
    omega

lemma escape_len_gt (s : Str) (h : hasSpecial s = true) :
    s.length < (html_escape s).length := by
  induction s with
  | nil => simp [hasSpecial] at h
  | cons c t ih =>
    rw [html_escape_cons, List.length_append, List.length_cons]
    simp only [hasSpecial, List.any_cons] at h
    rcases Bool.or_eq_true_iff.mp h with h | h
    · have := escChar_len_special c h
      have := escape_len_ge t
      omega
    · have := ih h
      have := escChar_len_ge_one c
      omega

lemma escape_ne_of_special (s : Str) (h : hasSpecial s = true) :
    html_escape s ≠ s := by
  intro heq
  have := escape_len_gt s h
  rw [heq] at this
  omega

lemma helloBody_decomp (n : Str) :
    helloBody n = helloTmplA ++ (html_escape n ++ (helloTmplB ++ [nlc])) := by
  simp [helloBody, pyPrint, List.append_assoc]

lemma helloOut_decomp (e : Env) :
    helloOut e = helloPre ++ (html_escape (extractName (helloQs e)) ++ helloSuf) := by
  simp [helloOut, helloBody, pyPrint, helloPre, helloSuf, List.append_assoc]

lemma testOut_decomp (e : Env) :
    testOut e = testPre ++ (testMethod e ++ testSuf) := by
  simp [testOut, pyPrint, testPre, testSuf, List.append_assoc]

lemma linesOf_cons_nl (b : Str) : linesOf (nlc :: b) = [] :: linesOf b := by
  simp [linesOf, pySplitChar]

lemma helloOut_shape (e : Env) :
    helloOut e = s2l "Status: 200 OK"
      ++ nlc :: (s2l "Content-Type: text/html; charset=utf-8"
      ++ nlc :: (nlc :: (s2l "<!doctype html>"
      ++ nlc :: (helloTmplA2
          ++ (html_escape (extractName (helloQs e)) ++ (helloTmplB ++ [nlc])))))) := by
  have hA : helloTmplA = s2l "<!doctype html>" ++ nlc :: helloTmplA2 := by decide
  rw [helloOut, helloBody, hA]
  simp [pyPrint, List.append_assoc]

lemma helloOut_lines (e : Env) :
    linesOf (helloOut e) = s2l "Status: 200 OK"
      :: s2l "Content-Type: text/html; charset=utf-8"
      :: []
      :: s2l "<!doctype html>"
      :: linesOf (helloTmplA2
          ++ (html_escape (extractName (helloQs e)) ++ (helloTmplB ++ [nlc]))) := by
  rw [helloOut_shape e, linesOf_app_nl _ _ (by decide), linesOf_app_nl _ _ (by decide),
    linesOf_cons_nl, linesOf_app_nl _ _ (by decide)]

lemma testOut_shape (e : Env) :
    testOut e = s2l "Content-Type: text/html\r"
      ++ nlc :: ([crc] ++ nlc :: (s2l "<!DOCTYPE html>" ++ nlc :: testTail e)) := by
  rw [testOut, testPreLines, testTail]
  simp [pyPrint, List.append_assoc, (show s2l "\r" = [crc] by decide)]

lemma testOut_lines (e : Env) :
    linesOf (testOut e) = s2l "Content-Type: text/html\r"
      :: [crc]
      :: s2l "<!DOCTYPE html>"
      :: linesOf (testTail e) := by
  rw [testOut_shape e, linesOf_app_nl _ _ (by decide), linesOf_app_nl _ _ (by decide),
    linesOf_app_nl _ _ (by decide)]

lemma sepCheck_hhbl (l1 l2 l4 : Str) (tail : List Str)
    (h1 : l1.isEmpty = false) (h2 : l2.isEmpty = false) (h4 : l4.isEmpty = false) :
    sepCheck (l1 :: l2 :: [] :: l4 :: tail) = true := by
  simp [sepCheck, h1, h2, h4]

lemma sepCheck_hbl (l1 l3 : Str) (tail : List Str)
    (h1 : l1.isEmpty = false) (h3 : l3.isEmpty = false) :
    sepCheck (l1 :: [] :: l3 :: tail) = true := by
  simp [sepCheck, h1, h3]

lemma helloOut_head (e : Env) :
    helloOut e = helloHead ++ helloBody (extractName (helloQs e)) := by
  simp [helloOut, helloHead, List.append_assoc]

lemma testOut_head (e : Env) :
    testOut e = testHead ++ (pyPrint (s2l "<!DOCTYPE html>") ++ testTail e) := by
  simp [testOut, testPreLines, testHead, testTail, pyPrint, List.append_assoc]

/-!  ## The claims  -/

/-- Claim C1 (corrected), counterexample to the claim as stated: for the
name value `<` (query string `name=%3C`), which consists of a special
character, the rendered body does contain the raw unescaped form `<` — the
fixed markup of the template is full of `<` — so "never contains the raw,
unescaped form" fails under substring containment. -/
theorem claim_C1_counterexample :
    extractName (helloQs [("QUERY_STRING", "name=%3C")]) = [ltc]
      ∧ hasSpecial [ltc] = true
      ∧ occursIn [ltc] (helloBody (extractName (helloQs [("QUERY_STRING", "name=%3C")]))) = true := by
  exact ⟨by decide, by decide, by decide⟩

/-- Claim C1 (amended): for every name value containing any of the five
characters escaped by `html_escape` (ampersand, less-than, greater-than,
double quote, single quote), the rendered body embeds the HTML-escaped form of
the value at the interpolation point — the body is the fixed template
prefix, then `html_escape` of the value, then the fixed suffix — and the
interpolated segment is never the raw form: the escaped value differs from
the raw value and contains no raw less-than, greater-than, double-quote or
single-quote character (every ampersand it contains starts an entity).  The body may still contain the raw form
elsewhere, inside the fixed markup. -/
theorem claim_C1_escaped_embedding (v : Str) (h : hasSpecial v = true) :
    helloBody v = helloTmplA ++ (html_escape v ++ (helloTmplB ++ [nlc]))
      ∧ occursIn (html_escape v) (helloBody v) = true
      ∧ html_escape v ≠ v
      ∧ noRawMarkup (html_escape v) = true := by
  refine ⟨helloBody_decomp v, ?_, escape_ne_of_special v h, noRawMarkup_escape v⟩
  rw [helloBody_decomp v]
  exact occursIn_app _ _ _

/-- Witness for the amended claim C1 at the concrete value `<script>`. -/
theorem claim_C1_escaped_embedding_witness :
    hasSpecial (s2l "<script>") = true
      ∧ (helloBody (s2l "<script>")
          = helloTmplA ++ (html_escape (s2l "<script>") ++ (helloTmplB ++ [nlc]))
        ∧ occursIn (html_escape (s2l "<script>")) (helloBody (s2l "<script>")) = true
        ∧ html_escape (s2l "<script>") ≠ s2l "<script>"
        ∧ noRawMarkup (html_escape (s2l "<script>")) = true) :=
  ⟨by decide, claim_C1_escaped_embedding (s2l "<script>") (by decide)⟩

/-- Claim C2 (corrected), counterexample to the claim as stated: the test.py
output (here for the empty environment) contains no `200` anywhere — so it
cannot begin with a status line reporting 200 — and nowhere contains the
header `Content-Type: text/html; charset=utf-8` (its content-type header
has no charset parameter). -/
theorem claim_C2_counterexample :
    occursIn (s2l "200") (testOut []) = false
      ∧ occursIn (s2l "Content-Type: text/html; charset=utf-8") (testOut []) = false := by
  exact ⟨by decide, by decide⟩

/-- Claim C2 (amended): the output of hello.py begins, for every input, with the
status line `Status: 200 OK` followed by the header
`Content-Type: text/html; charset=utf-8` and the blank separator, before the
body; the output of test.py instead begins directly with the bare header
`Content-Type: text/html` (CRLF-terminated, no status line, no charset
parameter) and the blank separator. -/
theorem claim_C2_headers (e : Env) :
    helloOut e = helloHead ++ helloBody (extractName (helloQs e))
      ∧ helloHead = s2l "Status: 200 OK\nContent-Type: text/html; charset=utf-8\n\n"
      ∧ testOut e = testHead ++ (pyPrint (s2l "<!DOCTYPE html>") ++ testTail e)
      ∧ testHead = s2l "Content-Type: text/html\r\n\r\n" :=
  ⟨helloOut_head e, by decide, testOut_head e, by decide⟩

/-- Claim C3: for every input, the output of each script consists of a non-empty
block of non-blank header lines, exactly one blank line, and then a
non-blank first body line — judging a line blank after stripping a trailing
carriage return, so the invariant holds for the bare-`\n` headers of hello.py
and for the CRLF headers of test.py alike. -/
theorem claim_C3_blank_separator (e : Env) :
    headerSepOk (helloOut e) = true ∧ headerSepOk (testOut e) = true := by
  constructor
  · rw [headerSepOk, helloOut_lines e]
    simp only [List.map_cons]
    rw [show stripCR (s2l "Status: 200 OK") = s2l "Status: 200 OK" by decide,
      show stripCR (s2l "Content-Type: text/html; charset=utf-8")
          = s2l "Content-Type: text/html; charset=utf-8" by decide,
      show stripCR ([] : Str) = [] by decide,
      show stripCR (s2l "<!doctype html>") = s2l "<!doctype html>" by decide]
    exact sepCheck_hhbl _ _ _ _ (by decide) (by decide) (by decide)
  · rw [headerSepOk, testOut_lines e]
    simp only [List.map_cons]
    rw [show stripCR (s2l "Content-Type: text/html\r") = s2l "Content-Type: text/html" by decide,
      show stripCR [crc] = [] by decide,
      show stripCR (s2l "<!DOCTYPE html>") = s2l "<!DOCTYPE html>" by decide]
    exact sepCheck_hbl _ _ _ (by decide) (by decide)

/-- Claim C4: whenever the parsed query string carries no (non-empty)
`name` parameter — in particular when `QUERY_STRING` is absent or empty,
since `parse_qs` drops empty-valued fields — the extracted name is the
fallback literal `Nobody` and the rendered body contains it. -/
theorem claim_C4_default_name (e : Env) (h : parse_qs_get (helloQs e) nameKey = []) :
    extractName (helloQs e) = defaultName
      ∧ occursIn defaultName (helloBody (extractName (helloQs e))) = true := by
  have hx : extractName (helloQs e) = defaultName := by
    rw [extractName, h]
  refine ⟨hx, ?_⟩
  rw [hx, helloBody_decomp, show html_escape defaultName = defaultName by decide]
  exact occursIn_app _ _ _

/-- Witness for claim C4 at the empty environment (missing query string). -/
theorem claim_C4_default_name_witness :
    parse_qs_get (helloQs []) nameKey = []
      ∧ (extractName (helloQs []) = defaultName
        ∧ occursIn defaultName (helloBody (extractName (helloQs []))) = true) :=
  ⟨by decide, claim_C4_default_name [] (by decide)⟩

/-- Claim C5: the query string is parsed by `parse_qs` into a mapping from
parameter name to the sequence of its decoded values in occurrence order
(`parse_qs_get`), and when the `name` key has several occurrences the value
embedded in the body is the first one. -/
theorem claim_C5_first_occurrence (e : Env) (v : Str) (vs : List Str)
    (h : parse_qs_get (helloQs e) nameKey = v :: vs) :
    extractName (helloQs e) = v
      ∧ helloOut e = helloPre ++ (html_escape v ++ helloSuf) := by
  have hx : extractName (helloQs e) = v := by
    rw [extractName, h]
  exact ⟨hx, by rw [helloOut_decomp e, hx]⟩

/-- Witness for claim C5 at a query string with a repeated `name` key. -/
theorem claim_C5_first_occurrence_witness :
    parse_qs_get (helloQs [("QUERY_STRING", "name=first&name=second")]) nameKey
        = [s2l "first", s2l "second"]
      ∧ (extractName (helloQs [("QUERY_STRING", "name=first&name=second")]) = s2l "first"
        ∧ helloOut [("QUERY_STRING", "name=first&name=second")]
            = helloPre ++ (html_escape (s2l "first") ++ helloSuf)) :=
  ⟨by decide,
    claim_C5_first_occurrence [("QUERY_STRING", "name=first&name=second")]
      (s2l "first") [s2l "second"] (by decide)⟩

/-- Claim C6: the responder is total.  The one Python operation in hello.py
that could raise — the `[0]` indexing of `params.get("name", ["Nobody"])` —
is modelled by the `Option`-valued `extractNameOpt`; it always succeeds,
because the fetched list is never empty, and the script always produces the
complete response `helloOut` (headers, separator and body). -/
theorem claim_C6_total (e : Env) :
    extractNameOpt (helloQs e) = some (extractName (helloQs e))
      ∧ helloOut e = helloPre ++ (html_escape (extractName (helloQs e)) ++ helloSuf) := by
  constructor
  · rw [extractNameOpt, paramsGetName, extractName]
    cases parse_qs_get (helloQs e) nameKey <;> rfl
  · exact helloOut_decomp e

/-- Claim C7: for the query string `name=%3Cscript%3E` the value is first
percent-decoded to `<script>` and then HTML-escaped, so the body contains
`&lt;script&gt;` and no literal `<script>`. -/
theorem claim_C7_percent_then_escape :
    extractName (helloQs [("QUERY_STRING", "name=%3Cscript%3E")]) = s2l "<script>"
      ∧ occursIn (s2l "&lt;script&gt;")
          (helloBody (extractName (helloQs [("QUERY_STRING", "name=%3Cscript%3E")]))) = true
      ∧ occursIn (s2l "<script>")
          (helloBody (extractName (helloQs [("QUERY_STRING", "name=%3Cscript%3E")]))) = false := by
  exact ⟨by decide, by decide, by decide⟩

/-- Claim C8: test.py interpolates `REQUEST_METHOD` without HTML-escaping,
so an environment-supplied value containing markup characters reaches the
output raw: with `REQUEST_METHOD=<script>`, the output contains the literal
`<script>` and not its escaped form. -/
theorem claim_C8_unescaped_variant :
    ∃ e : Env, ∃ m : String,
      envLookup e "REQUEST_METHOD" = some m
        ∧ hasSpecial m.data = true
        ∧ occursIn m.data (testOut e) = true
        ∧ occursIn (html_escape m.data) (testOut e) = false := by
  exact ⟨[("REQUEST_METHOD", "<script>")], "<script>", by decide, by decide, by decide, by decide⟩

/-- Claim C9: the output of each script depends on exactly one environment
variable — environments agreeing on `QUERY_STRING` give byte-identical
hello.py output, and environments agreeing on `REQUEST_METHOD` give
byte-identical test.py output, whatever the other variables hold. -/
theorem claim_C9_noninterference :
    (∀ e1 e2 : Env, envLookup e1 "QUERY_STRING" = envLookup e2 "QUERY_STRING" →
        helloOut e1 = helloOut e2)
      ∧ (∀ e1 e2 : Env, envLookup e1 "REQUEST_METHOD" = envLookup e2 "REQUEST_METHOD" →
        testOut e1 = testOut e2) := by
  constructor
  · intro e1 e2 h
    simp only [helloOut, helloBody, helloQs, envGetD, h]
  · intro e1 e2 h
    simp only [testOut, testMethod, envGetD, h]

/-- Witness for claim C9: two environment pairs that agree on the one
variable each script reads but differ elsewhere. -/
theorem claim_C9_noninterference_witness :
    helloOut [("QUERY_STRING", "name=Ann"), ("REQUEST_METHOD", "GET")]
        = helloOut [("QUERY_STRING", "name=Ann"), ("REQUEST_METHOD", "POST"), ("SERVER_NAME", "x")]
      ∧ testOut [("REQUEST_METHOD", "GET"), ("QUERY_STRING", "a=1")]
        = testOut [("QUERY_STRING", "b=2"), ("REQUEST_METHOD", "GET")] :=
  ⟨claim_C9_noninterference.1 _ _ (by decide),
    claim_C9_noninterference.2 _ _ (by decide)⟩

/-- Claim C10: all of each output except the single interpolated value is a
fixed constant — the hello.py output is the constant `helloPre`, then the
escaped name, then the constant `helloSuf`, and the test.py output is the
constant `testPre`, then the method string, then the constant `testSuf`;
the interpolation sites sit inside the `<h1>` element (after `Hello, `) and
inside the `<strong>` element respectively. -/
theorem claim_C10_fixed_frame (e : Env) :
    helloOut e = helloPre ++ (html_escape (extractName (helloQs e)) ++ helloSuf)
      ∧ testOut e = testPre ++ (testMethod e ++ testSuf)
      ∧ (s2l "<h1 class=\"demo-title\">Hello, ").isSuffixOf helloPre = true
      ∧ (s2l "!</h1>").isPrefixOf helloSuf = true
      ∧ (s2l "<strong>").isSuffixOf testPre = true
      ∧ (s2l "</strong></p>").isPrefixOf testSuf = true :=
  ⟨helloOut_decomp e, testOut_decomp e, by decide, by decide, by decide, by decide⟩

end Webserv
